import Mathlib

/-!
Verification of the Dukascopy tick-data download pipeline
(`data_download.py`, class `DukascopyDownloader`).

Modelling conventions (shallow embedding):

* Bytes are `Fin 256`; byte buffers are `List Byte`.
* `struct.unpack('>IIIff', chunk)` is modelled by `parseChunk`: it succeeds
  exactly when the chunk has 20 bytes, decoding three big-endian unsigned
  32-bit integers followed by two 32-bit IEEE-754 fields.  The two volume
  fields are carried as their raw 32-bit patterns, since the code stores the
  decoded floats without any arithmetic (pass-through); prices are modelled
  as exact rationals `scaled / 100000` (the float64 rounding performed by
  Python's `/` is abstracted away, as is usual for a shallow embedding).
* `datetime(year, month, day, hour)` plus `timedelta(milliseconds = t)` is
  modelled as a count of milliseconds since 0001-01-01 00:00, using the same
  proleptic-Gregorian ordinal computation as CPython's `datetime._ymd2ord`
  (`daysBeforeYear`, `daysBeforeMonth`, `ymd2ord`).  CPython raises
  `OverflowError` when the sum passes `datetime.max`
  (9999-12-31 23:59:59.999999); at whole-millisecond resolution that happens
  exactly when the sum reaches `ymd2ord 9999 12 31 * 86400000` milliseconds
  (`datetimeLimitMs`), and `parseChunk` returns `none` there, the exception
  then propagating out of `_parse_bi5` like any other parse failure.
* The network (`requests.get`) is an oracle `FetchOutcome` per (date, hour):
  a status/body response or a transport exception; `_download_file` maps it
  to `Option (List Byte)` exactly as the source does (body iff status 200).
* `lzma.decompress` is an external library function, modelled as an oracle
  `decomp : List Byte → Except Unit (List Byte)` (`.error` = the exception
  the source catches, `.ok` = decompressed buffer).
* `pandas.DataFrame.sort_values('timestamp')` is called with the default
  `kind='quicksort'`, which pandas/numpy document as NOT stable: the only
  behaviour the library guarantees is that the result is a permutation of
  the rows whose key column is non-decreasing.  The sort is therefore a
  parameter `sortTs` of `download_range`, constrained by `SortSpec` (exactly
  the documented guarantee); theorems quantify over every conforming
  behaviour, and `insertionSort`-based instances provide concrete
  conforming behaviours for witnesses.
* `DataFrame.to_csv(filepath, index=False)` is modelled structurally as a
  `FileWrite` record: target directory and file name, the header row, and
  one row per tick in the fixed column order (cell serialisation is
  pandas' concern and out of scope).
-/

/-- Bytes of the binary `.bi5` payload. -/
abbrev Byte := Fin 256

/-- Big-endian decoding of four bytes into an unsigned 32-bit value, as done
by `struct.unpack('>I', ...)`. -/
def beU32 (b0 b1 b2 b3 : Byte) : Nat :=
  ((b0.val * 256 + b1.val) * 256 + b2.val) * 256 + b3.val

/-- Calendar date, the `dt` argument of the Python methods. -/
structure Date where
  year : Nat
  month : Nat
  day : Nat
  deriving DecidableEq, Repr

/-- Leap-year test of the proleptic Gregorian calendar (CPython
`datetime._is_leap`). -/
def isLeap (y : Nat) : Bool :=
  y % 4 == 0 && (y % 100 != 0 || y % 400 == 0)

/-- Days in a month (CPython `datetime._days_in_month`). -/
def daysInMonth (y m : Nat) : Nat :=
  if m = 2 then (if isLeap y then 29 else 28)
  else if m = 4 ∨ m = 6 ∨ m = 9 ∨ m = 11 then 30
  else 31

/-- Days in the years before year `y` (CPython `datetime._days_before_year`). -/
def daysBeforeYear (y : Nat) : Nat :=
  (y - 1) * 365 + (y - 1) / 4 + (y - 1) / 400 - (y - 1) / 100

/-- Days in year `y` before month `m` (CPython `datetime._days_before_month`). -/
def daysBeforeMonth (y m : Nat) : Nat :=
  ((List.range' 1 (m - 1)).map (daysInMonth y)).sum

/-- Proleptic Gregorian ordinal of a date, day 1 being 0001-01-01 (CPython
`datetime._ymd2ord`). -/
def ymd2ord (y m d : Nat) : Nat :=
  daysBeforeYear y + daysBeforeMonth y m + d

/-- Milliseconds since 0001-01-01 00:00 of `datetime(dt.year, dt.month,
dt.day, hour, 0, 0)`, the `base_time` of `_parse_bi5`. -/
def hourStartMs (dt : Date) (hour : Nat) : Nat :=
  ((ymd2ord dt.year dt.month dt.day - 1) * 24 + hour) * 3600000

/-- Ordinal of 9999-12-31, the last day representable by CPython `datetime`
(`datetime.max.toordinal()`). -/
def maxOrdinal : Nat := ymd2ord 9999 12 31

/-- First millisecond count past `datetime.max`: `base_time +
timedelta(milliseconds=o)` raises `OverflowError` exactly when the resulting
instant reaches midnight of the day after 9999-12-31, i.e. when
`base + o ≥ maxOrdinal * 86400000` (instants here have whole-millisecond
resolution, and `datetime.max` is 9999-12-31 23:59:59.999999). -/
def datetimeLimitMs : Nat := maxOrdinal * 86400000

/-- A big-endian 32-bit field is below `2 ^ 32`. -/
theorem beU32_lt (b0 b1 b2 b3 : Byte) : beU32 b0 b1 b2 b3 < 2 ^ 32 := by
  have h0 := b0.isLt
  have h1 := b1.isLt
  have h2 := b2.isLt
  have h3 := b3.isLt
  simp only [beU32]
  omega

/-- Decoded tick record: the dictionary appended to `ticks` in `_parse_bi5`.
`timestamp` is in milliseconds since 0001-01-01 00:00; `ask`/`bid` are the
descaled prices as exact rationals; the volumes are the raw 32-bit patterns
of the two float32 fields, which the code passes through unchanged. -/
structure Tick where
  timestamp : Nat
  ask : ℚ
  bid : ℚ
  ask_volume : Nat
  bid_volume : Nat
  deriving DecidableEq, Repr

/-- Decoding of one 20-byte record: `struct.unpack('>IIIff', chunk)` followed
by the tick construction of `_parse_bi5` (lines 130-149 of the source).
`struct.unpack` raises unless the buffer has exactly 20 bytes, and
`base_time + timedelta(milliseconds=offset)` raises `OverflowError` when the
resulting instant passes `datetime.max` (see `datetimeLimitMs`); either
exception is the `none` case. -/
def parseChunk (base : Nat) (chunk : List Byte) : Option Tick :=
  if h : chunk.length = 20 then
    if base + beU32 (chunk.get ⟨0, by omega⟩) (chunk.get ⟨1, by omega⟩)
        (chunk.get ⟨2, by omega⟩) (chunk.get ⟨3, by omega⟩) < datetimeLimitMs then
      some
        { timestamp := base + beU32 (chunk.get ⟨0, by omega⟩) (chunk.get ⟨1, by omega⟩)
            (chunk.get ⟨2, by omega⟩) (chunk.get ⟨3, by omega⟩)
          ask := (beU32 (chunk.get ⟨4, by omega⟩) (chunk.get ⟨5, by omega⟩)
            (chunk.get ⟨6, by omega⟩) (chunk.get ⟨7, by omega⟩) : ℚ) / 100000
          bid := (beU32 (chunk.get ⟨8, by omega⟩) (chunk.get ⟨9, by omega⟩)
            (chunk.get ⟨10, by omega⟩) (chunk.get ⟨11, by omega⟩) : ℚ) / 100000
          ask_volume := beU32 (chunk.get ⟨12, by omega⟩) (chunk.get ⟨13, by omega⟩)
            (chunk.get ⟨14, by omega⟩) (chunk.get ⟨15, by omega⟩)
          bid_volume := beU32 (chunk.get ⟨16, by omega⟩) (chunk.get ⟨17, by omega⟩)
            (chunk.get ⟨18, by omega⟩) (chunk.get ⟨19, by omega⟩) }
    else none
  else none

/-- The `for i in range(num_ticks)` loop of `_parse_bi5`, decoding `count`
consecutive 20-byte chunks starting at chunk index `i`.  An unpack exception
at any chunk aborts the whole parse (`none`), as the exception propagates
out of `_parse_bi5`. -/
def parseRecs (base : Nat) (data : List Byte) : Nat → Nat → Option (List Tick)
  | _, 0 => some []
  | i, c + 1 =>
    match parseChunk base ((data.drop (i * 20)).take 20) with
    | none => none
    | some t =>
      match parseRecs base data (i + 1) c with
      | none => none
      | some ts => some (t :: ts)

/-- The record parser `_parse_bi5` (source lines 100-151): empty buffer gives
an empty frame; otherwise `len(data) // 20` records are decoded in order.
`none` models an exception escaping `_parse_bi5` (in particular the
`OverflowError` of the datetime addition near `datetime.max`). -/
def _parse_bi5 (data : List Byte) (dt : Date) (hour : Nat) : Option (List Tick) :=
  if data.length = 0 then some []
  else parseRecs (hourStartMs dt hour) data 0 (data.length / 20)

/-- The base URL constant `DukascopyDownloader.BASE_URL`. -/
def BASE_URL : String := "https://datafeed.dukascopy.com/datafeed"

/-- Python's `f"{n:0wd}"` for a non-negative integer: the decimal digits,
left-padded with zeros to width `w`. -/
def padNum (w n : Nat) : String :=
  String.mk (List.replicate (w - (toString n).length) '0') ++ toString n

/-- The resource locator `_get_tick_url` (source lines 45-66): note the
zero-indexed month `dt.month - 1`. -/
def _get_tick_url (pair : String) (dt : Date) (hour : Nat) : String :=
  BASE_URL ++ "/" ++ pair ++ "/" ++
    padNum 4 dt.year ++ "/" ++ padNum 2 (dt.month - 1) ++ "/" ++ padNum 2 dt.day ++ "/" ++
    padNum 2 hour ++ "h_ticks.bi5"

/-- Outcome of `requests.get(url, timeout=30)`: either a response with a
status code and body, or a transport-level exception. -/
inductive FetchOutcome where
  | response (status : Nat) (body : List Byte)
  | exn
  deriving DecidableEq

/-- The fetcher `_download_file` (source lines 68-86): the body on status
200, `None` on any other status, `None` on any exception (caught and
logged at debug level). -/
def _download_file : FetchOutcome → Option (List Byte)
  | .response status body => if status = 200 then some body else none
  | .exn => none

/-- Behaviour of `lzma.decompress` on a given input: the decompressed buffer,
or `.error` when it raises (corrupt payload).  The library itself is external
to the repository, so it enters the model as an oracle function. -/
abbrev Decomp := List Byte → Except Unit (List Byte)

/-- Records contributed by one hour of `download_day`: empty whenever the
fetch, the decompression or the parse fails, otherwise the parsed ticks. -/
def hourRecords (decomp : Decomp) (fetch : Nat → FetchOutcome) (dt : Date)
    (hour : Nat) : List Tick :=
  match _download_file (fetch hour) with
  | none => []
  | some comp =>
    match decomp comp with
    | .error _ => []
    | .ok data => (_parse_bi5 data dt hour).getD []

/-- One iteration of the `for hour in range(24)` loop of `download_day`
(source lines 167-189), acting on the accumulated `day_ticks` list of
per-hour frames: every failure `continue`s, and a parsed frame is appended
only if non-empty. -/
def dayStep (decomp : Decomp) (fetch : Nat → FetchOutcome) (dt : Date)
    (acc : List (List Tick)) (hour : Nat) : List (List Tick) :=
  match _download_file (fetch hour) with
  | none => acc
  | some comp =>
    match decomp comp with
    | .error _ => acc
    | .ok data =>
      match _parse_bi5 data dt hour with
      | none => acc
      | some ts => if ts.isEmpty then acc else acc ++ [ts]

/-- The day orchestrator `download_day` (source lines 153-199): run the 24
hour iterations, then return the empty frame if nothing was collected, and
the concatenation `pd.concat(day_ticks)` otherwise. -/
def download_day (decomp : Decomp) (fetch : Nat → FetchOutcome) (dt : Date) :
    List Tick :=
  let day_ticks := (List.range 24).foldl (dayStep decomp fetch dt) []
  if day_ticks.isEmpty then [] else day_ticks.flatten

/-- Ordering of ticks by the `timestamp` column. -/
def tsLE (a b : Tick) : Prop := a.timestamp ≤ b.timestamp

instance : DecidableRel tsLE := fun a b => Nat.decLe a.timestamp b.timestamp

instance : IsTotal Tick tsLE := ⟨fun a b => Nat.le_total a.timestamp b.timestamp⟩

instance : IsTrans Tick tsLE := ⟨fun _ _ _ h1 h2 => Nat.le_trans h1 h2⟩

/-- Contract of `DataFrame.sort_values('timestamp')` with the default
`kind='quicksort'`: pandas/numpy guarantee only that the result is a
permutation of the input whose `timestamp` column is non-decreasing
(`quicksort` is documented as not stable, so nothing more is promised
about the relative order of equal keys). -/
def SortSpec (f : List Tick → List Tick) : Prop :=
  ∀ l : List Tick, (f l).Perm l ∧ (f l).Pairwise tsLE

/-- The header row of `to_csv`: the insertion order of the tick dictionary
keys in `_parse_bi5`, preserved by the DataFrame. -/
def csvHeader : List String := ["timestamp", "ask", "bid", "ask_volume", "bid_volume"]

/-- One CSV data row: the tick's fields in the fixed column order. -/
def tickRow (t : Tick) : Nat × ℚ × ℚ × Nat × Nat :=
  (t.timestamp, t.ask, t.bid, t.ask_volume, t.bid_volume)

/-- A durable write performed by `combined_df.to_csv(filepath, index=False)`:
the directory it targets, the file name, and the written table. -/
structure FileWrite where
  dir : String
  name : String
  header : List String
  rows : List (Nat × ℚ × ℚ × Nat × Nat)
  deriving DecidableEq

/-- The `all_ticks` accumulator of `download_range` (source lines 218-223):
the non-empty day frames collected in date order. -/
def range_all_ticks (decomp : Decomp) (fetch : Date → Nat → FetchOutcome)
    (dates : List Date) : List (List Tick) :=
  dates.foldl
    (fun acc dt =>
      let day_df := download_day decomp (fetch dt) dt
      if day_df.isEmpty then acc else acc ++ [day_df]) []

/-- The range orchestrator `download_range` (source lines 201-242), after the
external validation/expansion step produced `dates`.  Returns the dataset and
the list of file writes performed.  `sortTs` is the behaviour of
`sort_values('timestamp')` for this run (see `SortSpec`). -/
def download_range (sortTs : List Tick → List Tick) (decomp : Decomp)
    (fetch : Date → Nat → FetchOutcome) (dates : List Date)
    (pair start_date end_date output_dir : String) (save : Bool) :
    List Tick × List FileWrite :=
  if (range_all_ticks decomp fetch dates).isEmpty then ([], [])
  else
    let combined := sortTs (range_all_ticks decomp fetch dates).flatten
    (combined,
      if save then
        [{ dir := output_dir
           name := pair ++ "_" ++ start_date ++ "_" ++ end_date ++ ".csv"
           header := csvHeader
           rows := combined.map tickRow }]
      else [])

/-- Validation failures of the external collaborators (`validate_date_range`,
`validate_currency_pair`).  Modelled from the spec: `utils.py` is not part of
the analysed sources; §7 of the spec says these validators raise a fatal
`ValidationError` before the core runs. -/
inductive ValidationErr where
  | invalidRange
  | invalidPair
  deriving DecidableEq

/-- A full run of `download_range` including the collaborator validation step
(source line 213): `validated` is the collaborator's output, either a
`ValidationError` (which propagates) or the expanded date list.  Everything
after validation is the core, which never raises. -/
def download_range_run (sortTs : List Tick → List Tick) (decomp : Decomp)
    (fetch : Date → Nat → FetchOutcome)
    (validated : Except ValidationErr (List Date))
    (pair start_date end_date output_dir : String) (save : Bool) :
    Except ValidationErr (List Tick × List FileWrite) :=
  match validated with
  | .error e => .error e
  | .ok dates =>
    .ok (download_range sortTs decomp fetch dates pair start_date end_date output_dir save)

/-! ### Helper lemmas about the record parser -/

/-- A chunk of exactly 20 bytes unpacks whenever the hour start is at least
`2 ^ 32` ms below the datetime limit, so that no 32-bit offset can overflow. -/
theorem parseChunk_of_length (base : Nat) (chunk : List Byte)
    (h : chunk.length = 20) (hb : base + 2 ^ 32 ≤ datetimeLimitMs) :
    ∃ t, parseChunk base chunk = some t := by
  have hlt : base + beU32 (chunk.get ⟨0, by omega⟩) (chunk.get ⟨1, by omega⟩)
      (chunk.get ⟨2, by omega⟩) (chunk.get ⟨3, by omega⟩) < datetimeLimitMs := by
    have h32 := beU32_lt (chunk.get ⟨0, by omega⟩) (chunk.get ⟨1, by omega⟩)
      (chunk.get ⟨2, by omega⟩) (chunk.get ⟨3, by omega⟩)
    omega
  have hsome : (parseChunk base chunk).isSome = true := by
    unfold parseChunk
    rw [dif_pos h, if_pos hlt]
    rfl
  exact Option.isSome_iff_exists.mp hsome

/-- Every tick produced by `parseChunk` has its timestamp in the hour window
and non-negative prices. -/
theorem parseChunk_bounds (base : Nat) (chunk : List Byte) (t : Tick)
    (h : parseChunk base chunk = some t) :
    base ≤ t.timestamp ∧ t.timestamp < base + 2 ^ 32 ∧ 0 ≤ t.ask ∧ 0 ≤ t.bid := by
  unfold parseChunk at h
  split at h
  · rename_i hl
    split at h
    · rw [Option.some.injEq] at h
      subst h
      refine ⟨Nat.le_add_right _ _, ?_, ?_, ?_⟩
      · have h0 := (chunk.get ⟨0, by omega⟩).isLt
        have h1 := (chunk.get ⟨1, by omega⟩).isLt
        have h2 := (chunk.get ⟨2, by omega⟩).isLt
        have h3 := (chunk.get ⟨3, by omega⟩).isLt
        simp only [beU32]
        omega
      · exact div_nonneg (Nat.cast_nonneg _) (by norm_num)
      · exact div_nonneg (Nat.cast_nonneg _) (by norm_num)
    · exact absurd h (by simp)
  · exact absurd h (by simp)

/-- The loop of `_parse_bi5` decodes exactly `count` records, in order: record
`k` of the result is the decode of the `k`-th 20-byte slice. -/
theorem parseRecs_spec (base : Nat) (data : List Byte)
    (hb : base + 2 ^ 32 ≤ datetimeLimitMs) :
    ∀ (c i : Nat), 20 * (i + c) ≤ data.length →
      ∃ ts, parseRecs base data i c = some ts ∧ ts.length = c ∧
        ∀ k, k < c → ts[k]? = parseChunk base ((data.drop ((i + k) * 20)).take 20) := by
  intro c
  induction c with
  | zero =>
    intro i _
    exact ⟨[], rfl, rfl, fun k hk => absurd hk (Nat.not_lt_zero k)⟩
  | succ c ih =>
    intro i h
    have hlen : ((data.drop (i * 20)).take 20).length = 20 := by
      simp only [List.length_take, List.length_drop]
      omega
    obtain ⟨t, ht⟩ := parseChunk_of_length base _ hlen hb
    obtain ⟨ts, hts, hl, hk⟩ := ih (i + 1) (by omega)
    refine ⟨t :: ts, ?_, by simp [hl], ?_⟩
    · simp only [parseRecs, ht, hts]
    · intro k hk'
      match k with
      | 0 => simpa using ht.symm
      | k + 1 =>
        have : i + 1 + k = i + (k + 1) := by omega
        simpa [this] using hk k (by omega)

/-- `_parse_bi5` always succeeds, yields `len / 20` ticks, and its `k`-th tick
is the decode of the `k`-th complete 20-byte slice of the buffer. -/
theorem parse_bi5_spec (data : List Byte) (dt : Date) (hour : Nat)
    (hb : hourStartMs dt hour + 2 ^ 32 ≤ datetimeLimitMs) :
    ∃ ts, _parse_bi5 data dt hour = some ts ∧ ts.length = data.length / 20 ∧
      ∀ k, k < data.length / 20 →
        ts[k]? = parseChunk (hourStartMs dt hour) ((data.drop (k * 20)).take 20) := by
  unfold _parse_bi5
  split
  · rename_i h0
    exact ⟨[], rfl, by simp [h0], fun k hk => absurd hk (by omega)⟩
  · obtain ⟨ts, h1, h2, h3⟩ :=
      parseRecs_spec (hourStartMs dt hour) data hb (data.length / 20) 0 (by omega)
    exact ⟨ts, h1, h2, fun k hk => by simpa using h3 k hk⟩

/-- Every tick a successful run of the parse loop produces satisfies the
hour-window and sign bounds (no overflow-safety hypothesis needed: success
itself implies each record was in range). -/
theorem parseRecs_mem_bounds (base : Nat) (data : List Byte) :
    ∀ (c i : Nat) (ts : List Tick), parseRecs base data i c = some ts →
      ∀ t ∈ ts, base ≤ t.timestamp ∧ t.timestamp < base + 2 ^ 32 ∧
        0 ≤ t.ask ∧ 0 ≤ t.bid := by
  intro c
  induction c with
  | zero =>
    intro i ts hts t ht
    obtain rfl : ([] : List Tick) = ts := by simpa [parseRecs] using hts
    exact absurd ht (by simp)
  | succ c ih =>
    intro i ts hts t ht
    unfold parseRecs at hts
    cases hch : parseChunk base ((data.drop (i * 20)).take 20) with
    | none => rw [hch] at hts; simp at hts
    | some t0 =>
      rw [hch] at hts
      cases hrest : parseRecs base data (i + 1) c with
      | none => rw [hrest] at hts; simp at hts
      | some ts2 =>
        rw [hrest] at hts
        obtain rfl : t0 :: ts2 = ts := by simpa using hts
        rcases List.mem_cons.mp ht with rfl | hmem
        · exact parseChunk_bounds _ _ _ hch
        · exact ih (i + 1) ts2 hrest t hmem

/-- Every tick in a parse result satisfies the hour-window and sign bounds. -/
theorem parse_bi5_mem_bounds (data : List Byte) (dt : Date) (hour : Nat)
    (ts : List Tick) (t : Tick) (hp : _parse_bi5 data dt hour = some ts)
    (ht : t ∈ ts) :
    hourStartMs dt hour ≤ t.timestamp ∧
      t.timestamp < hourStartMs dt hour + 2 ^ 32 ∧ 0 ≤ t.ask ∧ 0 ≤ t.bid := by
  unfold _parse_bi5 at hp
  split at hp
  · obtain rfl : ([] : List Tick) = ts := by simpa using hp
    exact absurd ht (by simp)
  · exact parseRecs_mem_bounds _ _ _ _ _ hp t ht

/-! ### Helper lemmas about the orchestrators -/

/-- One hour iteration appends exactly the hour's (non-empty) records. -/
theorem dayStep_eq (decomp : Decomp) (fetch : Nat → FetchOutcome) (dt : Date)
    (acc : List (List Tick)) (hour : Nat) :
    dayStep decomp fetch dt acc hour =
      if (hourRecords decomp fetch dt hour).isEmpty then acc
      else acc ++ [hourRecords decomp fetch dt hour] := by
  unfold dayStep hourRecords
  cases hdf : _download_file (fetch hour) with
  | none => simp
  | some comp =>
    cases hdc : decomp comp with
    | error e => simp [hdc]
    | ok data =>
      cases hp : _parse_bi5 data dt hour with
      | none => simp [hdc, hp]
      | some ts =>
        cases hts : ts.isEmpty with
        | true =>
          have hnil : ts = [] := List.isEmpty_iff.mp hts
          simp [hdc, hp, hts, hnil]
        | false =>
          have hne : ts ≠ [] := by
            intro hcon
            rw [hcon] at hts
            simp at hts
          simp [hdc, hp, hts, hne]

/-- Folding a collect-if-non-empty step gives the filtered map. -/
theorem foldl_collect {α : Type} (f : α → List Tick) :
    ∀ (l : List α) (acc : List (List Tick)),
      l.foldl (fun acc x => if (f x).isEmpty then acc else acc ++ [f x]) acc =
        acc ++ (l.map f).filter (fun r => !r.isEmpty) := by
  intro l
  induction l with
  | nil => intro acc; simp
  | cons x l ih =>
    intro acc
    rw [List.foldl_cons, ih]
    cases hx : (f x).isEmpty <;>
      simp [hx, List.filter_cons, List.append_assoc]

/-- Dropping empty lists does not change the concatenation. -/
theorem filter_nonempty_flatten {α : Type} (xs : List (List α)) :
    (xs.filter (fun r => !r.isEmpty)).flatten = xs.flatten := by
  induction xs with
  | nil => rfl
  | cons x xs ih =>
    cases hx : x.isEmpty with
    | false => simp [List.filter_cons, hx, ih]
    | true =>
      have hnil : x = [] := List.isEmpty_iff.mp hx
      simp [List.filter_cons, hx, hnil, ih]

/-- `download_day` is the concatenation, in hour order, of the per-hour
record sequences (failed or empty hours contributing `[]`). -/
theorem download_day_eq (decomp : Decomp) (fetch : Nat → FetchOutcome) (dt : Date) :
    download_day decomp fetch dt =
      ((List.range 24).map (hourRecords decomp fetch dt)).flatten := by
  have hstep : dayStep decomp fetch dt = fun acc h =>
      if (hourRecords decomp fetch dt h).isEmpty then acc
      else acc ++ [hourRecords decomp fetch dt h] := by
    funext acc h
    exact dayStep_eq decomp fetch dt acc h
  show (let day_ticks := (List.range 24).foldl (dayStep decomp fetch dt) [];
    if day_ticks.isEmpty then [] else day_ticks.flatten) = _
  rw [hstep, foldl_collect]
  simp only [List.nil_append]
  rw [← filter_nonempty_flatten ((List.range 24).map (hourRecords decomp fetch dt))]
  cases hL : (((List.range 24).map (hourRecords decomp fetch dt)).filter
      (fun r => !r.isEmpty)).isEmpty with
  | false => simp [hL]
  | true =>
    have : ((List.range 24).map (hourRecords decomp fetch dt)).filter
        (fun r => !r.isEmpty) = [] := List.isEmpty_iff.mp hL
    simp [hL, this]

/-- The non-empty per-day record sets of a range, in date order. -/
def rangeDays (decomp : Decomp) (fetch : Date → Nat → FetchOutcome)
    (dates : List Date) : List (List Tick) :=
  dates.map (fun dt => download_day decomp (fetch dt) dt)

/-- The `all_ticks` accumulator of `download_range` is the filtered list of
non-empty day record sets. -/
theorem range_foldl_eq (decomp : Decomp) (fetch : Date → Nat → FetchOutcome)
    (dates : List Date) :
    range_all_ticks decomp fetch dates =
      (rangeDays decomp fetch dates).filter (fun r => !r.isEmpty) := by
  simpa [range_all_ticks, rangeDays] using
    foldl_collect (fun dt => download_day decomp (fetch dt) dt) dates []

/-- If every day set is empty, `download_range` returns the empty dataset and
performs no write. -/
theorem download_range_of_empty (sortTs : List Tick → List Tick)
    (decomp : Decomp) (fetch : Date → Nat → FetchOutcome) (dates : List Date)
    (pair start_date end_date output_dir : String) (save : Bool)
    (h : (rangeDays decomp fetch dates).filter (fun r => !r.isEmpty) = []) :
    download_range sortTs decomp fetch dates pair start_date end_date output_dir save
      = ([], []) := by
  unfold download_range
  rw [range_foldl_eq, h]
  simp

/-- If some day set is non-empty, `download_range` sorts the concatenation of
all day sets and writes exactly when `save` is set. -/
theorem download_range_of_nonempty (sortTs : List Tick → List Tick)
    (decomp : Decomp) (fetch : Date → Nat → FetchOutcome) (dates : List Date)
    (pair start_date end_date output_dir : String) (save : Bool)
    (h : (rangeDays decomp fetch dates).filter (fun r => !r.isEmpty) ≠ []) :
    download_range sortTs decomp fetch dates pair start_date end_date output_dir save
      = (sortTs (rangeDays decomp fetch dates).flatten,
        if save then
          [{ dir := output_dir
             name := pair ++ "_" ++ start_date ++ "_" ++ end_date ++ ".csv"
             header := csvHeader
             rows := (sortTs (rangeDays decomp fetch dates).flatten).map tickRow }]
        else []) := by
  unfold download_range
  rw [range_foldl_eq, if_neg (by simp [List.isEmpty_iff, h]), filter_nonempty_flatten]

/-! ### Padding lemmas for the resource locator -/

theorem toString_nat_eq (n : Nat) : toString n = Nat.repr n := rfl

theorem padNum_length (w n : Nat) :
    (padNum w n).length = (w - (toString n).length) + (toString n).length := by
  simp [padNum, String.length_append]

theorem padNum_len_of_lt (w n : Nat) (hw : 0 < w) (h : n < 10 ^ w) :
    (padNum w n).length = w := by
  have hr : (Nat.repr n).length ≤ w := Nat.repr_length n w hw h
  have hts : (toString n).length ≤ w := by rw [toString_nat_eq]; exact hr
  rw [padNum_length]
  omega

/-- Evaluation helper: a buffer holding exactly one 20-byte record whose
timestamp stays below the datetime limit parses to the corresponding
one-tick list. -/
theorem parse_single_record (dt : Date) (hour : Nat)
    (b0 b1 b2 b3 b4 b5 b6 b7 b8 b9 b10 b11 b12 b13 b14 b15 b16 b17 b18 b19 : Byte)
    (hb : hourStartMs dt hour + beU32 b0 b1 b2 b3 < datetimeLimitMs) :
    _parse_bi5 [b0, b1, b2, b3, b4, b5, b6, b7, b8, b9, b10, b11, b12, b13,
        b14, b15, b16, b17, b18, b19] dt hour =
      some [{ timestamp := hourStartMs dt hour + beU32 b0 b1 b2 b3
              ask := (beU32 b4 b5 b6 b7 : ℚ) / 100000
              bid := (beU32 b8 b9 b10 b11 : ℚ) / 100000
              ask_volume := beU32 b12 b13 b14 b15
              bid_volume := beU32 b16 b17 b18 b19 }] := by
  have h : ([b0, b1, b2, b3, b4, b5, b6, b7, b8, b9, b10, b11, b12, b13,
      b14, b15, b16, b17, b18, b19] : List Byte).length = 20 := rfl
  have hch : parseChunk (hourStartMs dt hour)
      [b0, b1, b2, b3, b4, b5, b6, b7, b8, b9, b10, b11, b12, b13,
        b14, b15, b16, b17, b18, b19] =
      some { timestamp := hourStartMs dt hour + beU32 b0 b1 b2 b3
             ask := (beU32 b4 b5 b6 b7 : ℚ) / 100000
             bid := (beU32 b8 b9 b10 b11 : ℚ) / 100000
             ask_volume := beU32 b12 b13 b14 b15
             bid_volume := beU32 b16 b17 b18 b19 } := by
    unfold parseChunk
    rw [dif_pos h]
    show (if hourStartMs dt hour + beU32 b0 b1 b2 b3 < datetimeLimitMs then
        some ({ timestamp := hourStartMs dt hour + beU32 b0 b1 b2 b3,
                 ask := (beU32 b4 b5 b6 b7 : ℚ) / 100000,
                 bid := (beU32 b8 b9 b10 b11 : ℚ) / 100000,
                 ask_volume := beU32 b12 b13 b14 b15,
                 bid_volume := beU32 b16 b17 b18 b19 } : Tick)
      else none) =
      some ({ timestamp := hourStartMs dt hour + beU32 b0 b1 b2 b3,
               ask := (beU32 b4 b5 b6 b7 : ℚ) / 100000,
               bid := (beU32 b8 b9 b10 b11 : ℚ) / 100000,
               ask_volume := beU32 b12 b13 b14 b15,
               bid_volume := beU32 b16 b17 b18 b19 } : Tick)
    rw [if_pos hb]
  unfold _parse_bi5
  rw [h]
  norm_num
  simp [parseRecs, hch]

/-- Evaluation helper: a buffer holding exactly two in-range 20-byte records
parses to the corresponding two-tick list, in buffer order. -/
theorem parse_two_records (dt : Date) (hour : Nat)
    (a0 a1 a2 a3 a4 a5 a6 a7 a8 a9 a10 a11 a12 a13 a14 a15 a16 a17 a18 a19 : Byte)
    (b0 b1 b2 b3 b4 b5 b6 b7 b8 b9 b10 b11 b12 b13 b14 b15 b16 b17 b18 b19 : Byte)
    (hba : hourStartMs dt hour + beU32 a0 a1 a2 a3 < datetimeLimitMs)
    (hbb : hourStartMs dt hour + beU32 b0 b1 b2 b3 < datetimeLimitMs) :
    _parse_bi5 [a0, a1, a2, a3, a4, a5, a6, a7, a8, a9, a10, a11, a12, a13,
        a14, a15, a16, a17, a18, a19, b0, b1, b2, b3, b4, b5, b6, b7, b8, b9,
        b10, b11, b12, b13, b14, b15, b16, b17, b18, b19] dt hour =
      some [{ timestamp := hourStartMs dt hour + beU32 a0 a1 a2 a3
              ask := (beU32 a4 a5 a6 a7 : ℚ) / 100000
              bid := (beU32 a8 a9 a10 a11 : ℚ) / 100000
              ask_volume := beU32 a12 a13 a14 a15
              bid_volume := beU32 a16 a17 a18 a19 },
            { timestamp := hourStartMs dt hour + beU32 b0 b1 b2 b3
              ask := (beU32 b4 b5 b6 b7 : ℚ) / 100000
              bid := (beU32 b8 b9 b10 b11 : ℚ) / 100000
              ask_volume := beU32 b12 b13 b14 b15
              bid_volume := beU32 b16 b17 b18 b19 }] := by
  have h : ([a0, a1, a2, a3, a4, a5, a6, a7, a8, a9, a10, a11, a12, a13,
      a14, a15, a16, a17, a18, a19, b0, b1, b2, b3, b4, b5, b6, b7, b8, b9,
      b10, b11, b12, b13, b14, b15, b16, b17, b18, b19] : List Byte).length = 40 := rfl
  have hch0 : parseChunk (hourStartMs dt hour)
      [a0, a1, a2, a3, a4, a5, a6, a7, a8, a9, a10, a11, a12, a13,
        a14, a15, a16, a17, a18, a19] =
      some { timestamp := hourStartMs dt hour + beU32 a0 a1 a2 a3
             ask := (beU32 a4 a5 a6 a7 : ℚ) / 100000
             bid := (beU32 a8 a9 a10 a11 : ℚ) / 100000
             ask_volume := beU32 a12 a13 a14 a15
             bid_volume := beU32 a16 a17 a18 a19 } := by
    have hlen : ([a0, a1, a2, a3, a4, a5, a6, a7, a8, a9, a10, a11, a12, a13,
        a14, a15, a16, a17, a18, a19] : List Byte).length = 20 := rfl
    unfold parseChunk
    rw [dif_pos hlen]
    show (if hourStartMs dt hour + beU32 a0 a1 a2 a3 < datetimeLimitMs then
        some ({ timestamp := hourStartMs dt hour + beU32 a0 a1 a2 a3,
                 ask := (beU32 a4 a5 a6 a7 : ℚ) / 100000,
                 bid := (beU32 a8 a9 a10 a11 : ℚ) / 100000,
                 ask_volume := beU32 a12 a13 a14 a15,
                 bid_volume := beU32 a16 a17 a18 a19 } : Tick)
      else none) =
      some ({ timestamp := hourStartMs dt hour + beU32 a0 a1 a2 a3,
               ask := (beU32 a4 a5 a6 a7 : ℚ) / 100000,
               bid := (beU32 a8 a9 a10 a11 : ℚ) / 100000,
               ask_volume := beU32 a12 a13 a14 a15,
               bid_volume := beU32 a16 a17 a18 a19 } : Tick)
    rw [if_pos hba]
  have hch1 : parseChunk (hourStartMs dt hour)
      [b0, b1, b2, b3, b4, b5, b6, b7, b8, b9, b10, b11, b12, b13,
        b14, b15, b16, b17, b18, b19] =
      some { timestamp := hourStartMs dt hour + beU32 b0 b1 b2 b3
             ask := (beU32 b4 b5 b6 b7 : ℚ) / 100000
             bid := (beU32 b8 b9 b10 b11 : ℚ) / 100000
             ask_volume := beU32 b12 b13 b14 b15
             bid_volume := beU32 b16 b17 b18 b19 } := by
    have hlen : ([b0, b1, b2, b3, b4, b5, b6, b7, b8, b9, b10, b11, b12, b13,
        b14, b15, b16, b17, b18, b19] : List Byte).length = 20 := rfl
    unfold parseChunk
    rw [dif_pos hlen]
    show (if hourStartMs dt hour + beU32 b0 b1 b2 b3 < datetimeLimitMs then
        some ({ timestamp := hourStartMs dt hour + beU32 b0 b1 b2 b3,
                 ask := (beU32 b4 b5 b6 b7 : ℚ) / 100000,
                 bid := (beU32 b8 b9 b10 b11 : ℚ) / 100000,
                 ask_volume := beU32 b12 b13 b14 b15,
                 bid_volume := beU32 b16 b17 b18 b19 } : Tick)
      else none) =
      some ({ timestamp := hourStartMs dt hour + beU32 b0 b1 b2 b3,
               ask := (beU32 b4 b5 b6 b7 : ℚ) / 100000,
               bid := (beU32 b8 b9 b10 b11 : ℚ) / 100000,
               ask_volume := beU32 b12 b13 b14 b15,
               bid_volume := beU32 b16 b17 b18 b19 } : Tick)
    rw [if_pos hbb]
  unfold _parse_bi5
  rw [h]
  norm_num
  simp [parseRecs, hch0, hch1]

/-! ### Claim theorems -/

/-- C3 (amended): every complete 20-byte record of the buffer is decoded
big-endian as uint32 offset, uint32 scaled ask, uint32 scaled bid and two
32-bit float fields, producing a tick with timestamp
`hour start + offset_ms`, prices `scaled / 100000`, and the volume fields
passed through unchanged — provided the hour start lies at least `2 ^ 32` ms
below the datetime limit, so that no record can trip the `OverflowError` of
`base_time + timedelta` (this holds for every hour except those within about
fifty days of 9999-12-31; see `C3_overflow_counterexample` for the corner). -/
theorem C3_record_layout (dt : Date) (hour k : Nat) (pre post : List Byte)
    (b0 b1 b2 b3 b4 b5 b6 b7 b8 b9 b10 b11 b12 b13 b14 b15 b16 b17 b18 b19 : Byte)
    (hpre : pre.length = 20 * k)
    (hov : hourStartMs dt hour + 2 ^ 32 ≤ datetimeLimitMs) :
    ∃ ts, _parse_bi5
        (pre ++ ([b0, b1, b2, b3, b4, b5, b6, b7, b8, b9, b10, b11, b12, b13,
          b14, b15, b16, b17, b18, b19] ++ post)) dt hour = some ts ∧
      ts[k]? = some
        { timestamp := hourStartMs dt hour + beU32 b0 b1 b2 b3
          ask := (beU32 b4 b5 b6 b7 : ℚ) / 100000
          bid := (beU32 b8 b9 b10 b11 : ℚ) / 100000
          ask_volume := beU32 b12 b13 b14 b15
          bid_volume := beU32 b16 b17 b18 b19 } := by
  obtain ⟨ts, h1, h2, h3⟩ := parse_bi5_spec
    (pre ++ ([b0, b1, b2, b3, b4, b5, b6, b7, b8, b9, b10, b11, b12, b13,
      b14, b15, b16, b17, b18, b19] ++ post)) dt hour hov
  have hk : k < (pre ++ ([b0, b1, b2, b3, b4, b5, b6, b7, b8, b9, b10, b11, b12,
      b13, b14, b15, b16, b17, b18, b19] ++ post)).length / 20 := by
    simp only [List.length_append, List.length_cons, List.length_nil, hpre]
    omega
  have hs := h3 k hk
  have hslice : ((pre ++ ([b0, b1, b2, b3, b4, b5, b6, b7, b8, b9, b10, b11, b12,
      b13, b14, b15, b16, b17, b18, b19] ++ post)).drop (k * 20)).take 20 =
      [b0, b1, b2, b3, b4, b5, b6, b7, b8, b9, b10, b11, b12, b13, b14, b15,
        b16, b17, b18, b19] := by
    rw [show k * 20 = pre.length by omega, List.drop_left,
      show (20 : Nat) = ([b0, b1, b2, b3, b4, b5, b6, b7, b8, b9, b10, b11, b12,
        b13, b14, b15, b16, b17, b18, b19] : List Byte).length from rfl,
      List.take_left]
  refine ⟨ts, h1, ?_⟩
  rw [hs, hslice]
  have hlt : hourStartMs dt hour + beU32 b0 b1 b2 b3 < datetimeLimitMs := by
    have h32 := beU32_lt b0 b1 b2 b3
    omega
  have hlen20 : ([b0, b1, b2, b3, b4, b5, b6, b7, b8, b9, b10, b11, b12, b13,
      b14, b15, b16, b17, b18, b19] : List Byte).length = 20 := rfl
  unfold parseChunk
  rw [dif_pos hlen20]
  show (if hourStartMs dt hour + beU32 b0 b1 b2 b3 < datetimeLimitMs then
      some ({ timestamp := hourStartMs dt hour + beU32 b0 b1 b2 b3,
               ask := (beU32 b4 b5 b6 b7 : ℚ) / 100000,
               bid := (beU32 b8 b9 b10 b11 : ℚ) / 100000,
               ask_volume := beU32 b12 b13 b14 b15,
               bid_volume := beU32 b16 b17 b18 b19 } : Tick)
    else none) =
    some ({ timestamp := hourStartMs dt hour + beU32 b0 b1 b2 b3,
             ask := (beU32 b4 b5 b6 b7 : ℚ) / 100000,
             bid := (beU32 b8 b9 b10 b11 : ℚ) / 100000,
             ask_volume := beU32 b12 b13 b14 b15,
             bid_volume := beU32 b16 b17 b18 b19 } : Tick)
  rw [if_pos hlt]

/-- C3 witness: a concrete record (offset 1 ms, scaled ask 123456, scaled bid
123455, float patterns 0x3F800000 and 0x40000000) parsed for 2024-01-15
hour 3; the decoded numeric field values are checked explicitly. -/
theorem C3_record_layout_witness :
    ([] : List Byte).length = 20 * 0 ∧
      hourStartMs ⟨2024, 1, 15⟩ 3 + 2 ^ 32 ≤ datetimeLimitMs ∧
      (∃ ts, _parse_bi5
          (([] : List Byte) ++ ([0, 0, 0, 1, 0, 1, 226, 64, 0, 1, 226, 63,
            63, 128, 0, 0, 64, 0, 0, 0] ++ ([] : List Byte))) ⟨2024, 1, 15⟩ 3 = some ts ∧
        ts[0]? = some
          { timestamp := hourStartMs ⟨2024, 1, 15⟩ 3 + beU32 0 0 0 1
            ask := (beU32 0 1 226 64 : ℚ) / 100000
            bid := (beU32 0 1 226 63 : ℚ) / 100000
            ask_volume := beU32 63 128 0 0
            bid_volume := beU32 64 0 0 0 }) ∧
      hourStartMs ⟨2024, 1, 15⟩ 3 + beU32 0 0 0 1 = 63840884400001 ∧
      beU32 0 1 226 64 = 123456 ∧ beU32 0 1 226 63 = 123455 ∧
      beU32 63 128 0 0 = 1065353216 ∧ beU32 64 0 0 0 = 1073741824 :=
  ⟨rfl, by decide,
    C3_record_layout ⟨2024, 1, 15⟩ 3 0 [] []
      0 0 0 1 0 1 226 64 0 1 226 63 63 128 0 0 64 0 0 0 rfl (by decide),
    by decide, by decide, by decide, by decide, by decide⟩

/-- C3 counterexample: for the valid date 9999-12-31, hour 23, a complete
record whose offset field is `0xFFFFFFFF` makes `base_time + timedelta`
pass `datetime.max`; the source raises `OverflowError` and produces no tick,
so the parse yields no record list at all, refuting the unconditional claim. -/
theorem C3_overflow_counterexample :
    ([] : List Byte).length = 20 * 0 ∧
      _parse_bi5 (([] : List Byte) ++ ([255, 255, 255, 255, 0, 0, 0, 0,
        0, 0, 0, 0, 0, 0, 0, 0, 0, 0, 0, 0] ++ ([] : List Byte)))
        ⟨9999, 12, 31⟩ 23 = none ∧
      datetimeLimitMs ≤ hourStartMs ⟨9999, 12, 31⟩ 23 + beU32 255 255 255 255 :=
  ⟨rfl, by decide, by decide⟩

/-- C4 (amended): the parser decodes exactly `len / 20` records whenever the
hour start lies at least `2 ^ 32` ms below the datetime limit (so no record
can overflow `datetime.max`); an empty buffer yields an empty sequence
without error. -/
theorem C4_parse_floor (data : List Byte) (dt : Date) (hour : Nat)
    (hov : hourStartMs dt hour + 2 ^ 32 ≤ datetimeLimitMs) :
    (∃ ts, _parse_bi5 data dt hour = some ts ∧ ts.length = data.length / 20) ∧
      _parse_bi5 [] dt hour = some [] := by
  obtain ⟨ts, h1, h2, _⟩ := parse_bi5_spec data dt hour hov
  exact ⟨⟨ts, h1, h2⟩, rfl⟩

/-- C4 witness: a two-record buffer on an ordinary date. -/
theorem C4_parse_floor_witness :
    hourStartMs ⟨2024, 1, 15⟩ 3 + 2 ^ 32 ≤ datetimeLimitMs ∧
      ((∃ ts, _parse_bi5 (List.replicate 40 0) ⟨2024, 1, 15⟩ 3 = some ts ∧
          ts.length = (List.replicate 40 (0 : Byte)).length / 20) ∧
        _parse_bi5 [] ⟨2024, 1, 15⟩ 3 = some []) :=
  ⟨by decide, C4_parse_floor (List.replicate 40 0) ⟨2024, 1, 15⟩ 3 (by decide)⟩

/-- C4 counterexample: a 20-byte buffer of `0xFF` bytes at 9999-12-31 hour 23
has `floor(20 / 20) = 1` complete record, yet the source raises
`OverflowError` instead of decoding it, so the parse produces nothing. -/
theorem C4_overflow_counterexample :
    _parse_bi5 (List.replicate 20 255) ⟨9999, 12, 31⟩ 23 = none ∧
      (List.replicate 20 (255 : Byte)).length / 20 = 1 :=
  ⟨by decide, by decide⟩

/-- C9 (amended): the parse-error branch guarded by the day orchestrator is
reachable only through the datetime-overflow corner: whenever the hour start
lies at least `2 ^ 32` ms below the datetime limit (every hour except those
within about fifty days of 9999-12-31), `_parse_bi5` returns normally with
`len / 20` ticks for every buffer; near `datetime.max` a large offset makes
`base_time + timedelta` raise `OverflowError` inside the loop (see
`C9_overflow_counterexample`), and the orchestrator's guard absorbs it. -/
theorem C9_parse_total (data : List Byte) (dt : Date) (hour : Nat)
    (hov : hourStartMs dt hour + 2 ^ 32 ≤ datetimeLimitMs) :
    _parse_bi5 data dt hour ≠ none ∧
      Option.map List.length (_parse_bi5 data dt hour) = some (data.length / 20) := by
  obtain ⟨ts, h1, h2, _⟩ := parse_bi5_spec data dt hour hov
  exact ⟨by simp [h1], by simp [h1, h2]⟩

/-- C9 witness: an ordinary date, on which the parser cannot fail. -/
theorem C9_parse_total_witness :
    hourStartMs ⟨2024, 1, 15⟩ 3 + 2 ^ 32 ≤ datetimeLimitMs ∧
      (_parse_bi5 (List.replicate 40 0) ⟨2024, 1, 15⟩ 3 ≠ none ∧
        Option.map List.length (_parse_bi5 (List.replicate 40 0) ⟨2024, 1, 15⟩ 3) =
          some ((List.replicate 40 (0 : Byte)).length / 20)) :=
  ⟨by decide, C9_parse_total (List.replicate 40 0) ⟨2024, 1, 15⟩ 3 (by decide)⟩

/-- C9 counterexample: the parse-error branch fires at a valid date/hour —
9999-12-31 hour 0 with offset field `0xFFFFFFFF` overflows `datetime.max`,
so `_parse_bi5` raises instead of returning `floor(len / 20)` ticks. -/
theorem C9_overflow_counterexample :
    _parse_bi5 [255, 255, 255, 255, 0, 0, 0, 0, 0, 0, 0, 0, 0, 0, 0, 0,
        0, 0, 0, 0] ⟨9999, 12, 31⟩ 0 = none ∧
      datetimeLimitMs ≤ hourStartMs ⟨9999, 12, 31⟩ 0 + beU32 255 255 255 255 :=
  ⟨by decide, by decide⟩

/-- C10: every parsed tick lies in the hour window (timestamp in
`[hour start, hour start + 2^32)` milliseconds) and has non-negative
prices. -/
theorem C10_tick_invariants (data : List Byte) (dt : Date) (hour : Nat)
    (ts : List Tick) (t : Tick) (hp : _parse_bi5 data dt hour = some ts)
    (ht : t ∈ ts) :
    hourStartMs dt hour ≤ t.timestamp ∧
      t.timestamp < hourStartMs dt hour + 2 ^ 32 ∧ 0 ≤ t.ask ∧ 0 ≤ t.bid :=
  parse_bi5_mem_bounds data dt hour ts t hp ht

/-- C10 witness: the invariant checked on a concrete one-record buffer. -/
theorem C10_tick_invariants_witness :
    ∃ ts t, _parse_bi5 [0, 0, 0, 1, 0, 1, 226, 64, 0, 1, 226, 63, 63, 128,
        0, 0, 64, 0, 0, 0] ⟨2024, 1, 15⟩ 3 = some ts ∧ t ∈ ts ∧
      (hourStartMs ⟨2024, 1, 15⟩ 3 ≤ t.timestamp ∧
        t.timestamp < hourStartMs ⟨2024, 1, 15⟩ 3 + 2 ^ 32 ∧
        0 ≤ t.ask ∧ 0 ≤ t.bid) := by
  have hp := parse_single_record ⟨2024, 1, 15⟩ 3
    0 0 0 1 0 1 226 64 0 1 226 63 63 128 0 0 64 0 0 0 (by decide)
  exact ⟨_, _, hp, List.mem_singleton.mpr rfl,
    C10_tick_invariants _ _ _ _ _ hp (List.mem_singleton.mpr rfl)⟩

/-- C5: the resource locator is a pure function of pair, date and hour,
producing `<base>/<pair>/<yyyy>/<mm0>/<dd>/<hh>h_ticks.bi5` with the month
rendered zero-indexed (`month - 1`), the day 1-indexed, the hour
zero-indexed, and the numeric fields zero-padded to widths 4, 2, 2, 2. -/
theorem C5_tick_url (pair : String) (dt : Date) (hour : Nat)
    (hy : dt.year < 10000) (hm : dt.month ≤ 12) (hd : dt.day ≤ 31)
    (hh : hour ≤ 23) :
    _get_tick_url pair dt hour =
      BASE_URL ++ "/" ++ pair ++ "/" ++ padNum 4 dt.year ++ "/" ++
        padNum 2 (dt.month - 1) ++ "/" ++ padNum 2 dt.day ++ "/" ++
        padNum 2 hour ++ "h_ticks.bi5" ∧
      (padNum 4 dt.year).length = 4 ∧ (padNum 2 (dt.month - 1)).length = 2 ∧
      (padNum 2 dt.day).length = 2 ∧ (padNum 2 hour).length = 2 := by
  have h4 : (10 : Nat) ^ 4 = 10000 := by norm_num
  have h2 : (10 : Nat) ^ 2 = 100 := by norm_num
  exact ⟨rfl,
    padNum_len_of_lt 4 dt.year (by omega) (by omega),
    padNum_len_of_lt 2 (dt.month - 1) (by omega) (by omega),
    padNum_len_of_lt 2 dt.day (by omega) (by omega),
    padNum_len_of_lt 2 hour (by omega) (by omega)⟩

/-- C5 witness: the spec's example 2024-01-15, hour 3, pair EURUSD, whose
month field is `00`, day field `15` and hour field `03`. -/
theorem C5_tick_url_witness :
    _get_tick_url "EURUSD" ⟨2024, 1, 15⟩ 3 =
        "https://datafeed.dukascopy.com/datafeed/EURUSD/2024/00/15/03h_ticks.bi5" ∧
      ((padNum 4 2024).length = 4 ∧ (padNum 2 (1 - 1)).length = 2 ∧
        (padNum 2 15).length = 2 ∧ (padNum 2 3).length = 2) :=
  ⟨by decide,
    (C5_tick_url "EURUSD" ⟨2024, 1, 15⟩ 3 (by decide) (by decide) (by decide)
      (by decide)).2⟩

/-- Demo fetch behaviour for the spec's day-orchestrator scenario: hour 2
serves 100 records (2000 bytes), hour 5 serves 50 records (1000 bytes), all
other hours fail with a transport exception. -/
def c2Fetch : Nat → FetchOutcome := fun h =>
  if h = 2 then .response 200 (List.replicate 2000 0)
  else if h = 5 then .response 200 (List.replicate 1000 0)
  else .exn

/-- Demo decompressor behaviour: every payload decompresses to itself. -/
def idDecomp : Decomp := fun b => .ok b

/-- C2: the day orchestrator concatenates, in hour order 0..23, the per-hour
record sequences, a failed hour contributing nothing; in the spec's scenario
(hour 2: 100 ticks, hour 5: 50 ticks, others absent) it returns exactly 150
records, all hour-2 records before all hour-5 records. -/
theorem C2_day_orchestrator (decomp : Decomp) (fetch : Nat → FetchOutcome) (dt : Date) :
    download_day decomp fetch dt =
        ((List.range 24).map (hourRecords decomp fetch dt)).flatten ∧
      download_day idDecomp c2Fetch ⟨2024, 1, 15⟩ =
        hourRecords idDecomp c2Fetch ⟨2024, 1, 15⟩ 2 ++
          hourRecords idDecomp c2Fetch ⟨2024, 1, 15⟩ 5 ∧
      (hourRecords idDecomp c2Fetch ⟨2024, 1, 15⟩ 2).length = 100 ∧
      (hourRecords idDecomp c2Fetch ⟨2024, 1, 15⟩ 5).length = 50 ∧
      (download_day idDecomp c2Fetch ⟨2024, 1, 15⟩).length = 150 := by
  have h2 : (hourRecords idDecomp c2Fetch ⟨2024, 1, 15⟩ 2).length = 100 := by
    obtain ⟨ts, h1, hl, _⟩ := parse_bi5_spec (List.replicate 2000 0) ⟨2024, 1, 15⟩ 2
      (by decide)
    have : hourRecords idDecomp c2Fetch ⟨2024, 1, 15⟩ 2 =
        (_parse_bi5 (List.replicate 2000 0) ⟨2024, 1, 15⟩ 2).getD [] := rfl
    rw [this, h1]
    simp only [Option.getD_some]
    rw [hl, List.length_replicate]
  have h5 : (hourRecords idDecomp c2Fetch ⟨2024, 1, 15⟩ 5).length = 50 := by
    obtain ⟨ts, h1, hl, _⟩ := parse_bi5_spec (List.replicate 1000 0) ⟨2024, 1, 15⟩ 5
      (by decide)
    have : hourRecords idDecomp c2Fetch ⟨2024, 1, 15⟩ 5 =
        (_parse_bi5 (List.replicate 1000 0) ⟨2024, 1, 15⟩ 5).getD [] := rfl
    rw [this, h1]
    simp only [Option.getD_some]
    rw [hl, List.length_replicate]
  have hother : ∀ h : Nat, h ≠ 2 → h ≠ 5 →
      hourRecords idDecomp c2Fetch ⟨2024, 1, 15⟩ h = [] := by
    intro h hh2 hh5
    have hfe : c2Fetch h = .exn := by
      simp only [c2Fetch]
      rw [if_neg hh2, if_neg hh5]
    simp [hourRecords, hfe, _download_file]
  have hday : download_day idDecomp c2Fetch ⟨2024, 1, 15⟩ =
      hourRecords idDecomp c2Fetch ⟨2024, 1, 15⟩ 2 ++
        hourRecords idDecomp c2Fetch ⟨2024, 1, 15⟩ 5 := by
    rw [download_day_eq]
    rw [show List.range 24 =
      [0, 1, 2, 3, 4, 5, 6, 7, 8, 9, 10, 11, 12, 13, 14, 15, 16, 17, 18, 19,
        20, 21, 22, 23] by decide]
    simp [hother]
  refine ⟨download_day_eq decomp fetch dt, hday, h2, h5, ?_⟩
  rw [hday]
  simp [h2, h5]

/-- C6: when every requested day produces an empty day record set, the range
orchestrator returns an empty dataset and performs no file write, for any
value of the save flag. -/
theorem C6_empty_range (sortTs : List Tick → List Tick) (decomp : Decomp)
    (fetch : Date → Nat → FetchOutcome) (dates : List Date)
    (pair start_date end_date output_dir : String) (save : Bool)
    (h : ∀ dt ∈ dates, download_day decomp (fetch dt) dt = []) :
    download_range sortTs decomp fetch dates pair start_date end_date output_dir save
      = ([], []) := by
  apply download_range_of_empty
  apply List.filter_eq_nil_iff.mpr
  intro a ha
  obtain ⟨dt, hdt, rfl⟩ := List.mem_map.mp ha
  simp [h dt hdt]

/-- C6 witness: a one-day range where every hour fails retrieval, with
saving enabled. -/
theorem C6_empty_range_witness :
    (∀ dt ∈ [(⟨2024, 1, 1⟩ : Date)],
        download_day idDecomp ((fun _ _ => FetchOutcome.exn) dt) dt = []) ∧
      download_range (fun l => l) idDecomp (fun _ _ => FetchOutcome.exn)
          [⟨2024, 1, 1⟩] "EURUSD" "2024-01-01" "2024-01-01" "data/raw" true
        = ([], []) := by
  have h : ∀ dt ∈ [(⟨2024, 1, 1⟩ : Date)],
      download_day idDecomp ((fun _ _ => FetchOutcome.exn) dt) dt = [] := by
    intro dt hdt
    rw [List.mem_singleton] at hdt
    subst hdt
    rfl
  exact ⟨h, C6_empty_range _ _ _ _ _ _ _ _ _ h⟩

/-- C7: only a ValidationError coming from the external validators can escape
a full run; once validation succeeds, the run returns normally for every
pattern of per-hour fetch, decompression or parse failures. -/
theorem C7_error_propagation (sortTs : List Tick → List Tick) (decomp : Decomp)
    (fetch : Date → Nat → FetchOutcome)
    (validated : Except ValidationErr (List Date))
    (pair start_date end_date output_dir : String) (save : Bool) :
    (∀ e, download_range_run sortTs decomp fetch validated
        pair start_date end_date output_dir save = .error e →
          validated = .error e) ∧
      ∀ dates, validated = .ok dates →
        download_range_run sortTs decomp fetch validated
            pair start_date end_date output_dir save =
          .ok (download_range sortTs decomp fetch dates
            pair start_date end_date output_dir save) := by
  constructor
  · intro e he
    cases validated with
    | error e2 => simpa [download_range_run] using he
    | ok dates => simp [download_range_run] at he
  · intro dates hv
    subst hv
    rfl

/-- C7 witness: a failing validation propagates as the same error, and a
successful validation over an all-failing network still returns `.ok`. -/
theorem C7_error_propagation_witness :
    Except.error (α := List Date) ValidationErr.invalidRange =
        Except.error ValidationErr.invalidRange ∧
      download_range_run (fun l => l) idDecomp (fun _ _ => FetchOutcome.exn)
          (.ok [⟨2024, 1, 1⟩]) "EURUSD" "2024-01-01" "2024-01-01" "data/raw" true =
        .ok (download_range (fun l => l) idDecomp (fun _ _ => FetchOutcome.exn)
          [⟨2024, 1, 1⟩] "EURUSD" "2024-01-01" "2024-01-01" "data/raw" true) :=
  ⟨(C7_error_propagation (fun l => l) idDecomp (fun _ _ => FetchOutcome.exn)
      (.error .invalidRange) "EURUSD" "2024-01-01" "2024-01-01" "data/raw" true).1
      .invalidRange rfl,
    (C7_error_propagation (fun l => l) idDecomp (fun _ _ => FetchOutcome.exn)
      (.ok [⟨2024, 1, 1⟩]) "EURUSD" "2024-01-01" "2024-01-01" "data/raw" true).2
      [⟨2024, 1, 1⟩] rfl⟩

/-- A concrete behaviour satisfying the `sort_values` contract: a stable
insertion sort by timestamp. -/
def stableSortTicks : List Tick → List Tick := List.insertionSort tsLE

theorem sortSpec_stableSortTicks : SortSpec stableSortTicks := fun l =>
  ⟨List.perm_insertionSort tsLE l, List.sorted_insertionSort tsLE l⟩

/-- C8: the range orchestrator writes exactly one file — named
`<pair>_<start>_<end>.csv`, holding the fixed header and one row per tick in
column order timestamp, ask, bid, ask_volume, bid_volume — when saving is
enabled and the dataset is non-empty, and writes nothing otherwise. -/
theorem C8_persistence (sortTs : List Tick → List Tick) (hs : SortSpec sortTs)
    (decomp : Decomp) (fetch : Date → Nat → FetchOutcome) (dates : List Date)
    (pair start_date end_date output_dir : String) (save : Bool) :
    (download_range sortTs decomp fetch dates pair start_date end_date output_dir save).2 =
      if save ∧
          (download_range sortTs decomp fetch dates
            pair start_date end_date output_dir save).1 ≠ [] then
        [{ dir := output_dir
           name := pair ++ "_" ++ start_date ++ "_" ++ end_date ++ ".csv"
           header := csvHeader
           rows := ((download_range sortTs decomp fetch dates
             pair start_date end_date output_dir save).1).map tickRow }]
      else [] := by
  by_cases hA : (rangeDays decomp fetch dates).filter (fun r => !r.isEmpty) = []
  · rw [download_range_of_empty sortTs decomp fetch dates
      pair start_date end_date output_dir save hA]
    simp
  · rw [download_range_of_nonempty sortTs decomp fetch dates
      pair start_date end_date output_dir save hA]
    have hfl : (rangeDays decomp fetch dates).flatten ≠ [] := by
      rcases hf : (rangeDays decomp fetch dates).filter (fun r => !r.isEmpty) with _ | ⟨x, xs⟩
      · exact absurd hf hA
      · have hmem : x ∈ (rangeDays decomp fetch dates).filter (fun r => !r.isEmpty) := by
          rw [hf]
          exact List.mem_cons_self x xs
        have hx := List.of_mem_filter hmem
        have hxne : x ≠ [] := by simpa [List.isEmpty_iff] using hx
        simp only [ne_eq, List.flatten_eq_nil_iff]
        intro hall
        exact hxne (hall x (List.mem_of_mem_filter hmem))
    have hds : sortTs (rangeDays decomp fetch dates).flatten ≠ [] := by
      intro hcon
      have hperm := (hs (rangeDays decomp fetch dates).flatten).1
      rw [hcon] at hperm
      exact hfl (List.Perm.eq_nil hperm.symm)
    cases save <;> simp [hds]

/-- C8 witness: an all-failing one-day range with saving enabled performs no
write, checked through the theorem with the stable insertion sort as the
concrete `sort_values` behaviour. -/
theorem C8_persistence_witness :
    (download_range stableSortTicks idDecomp (fun _ _ => FetchOutcome.exn)
        [⟨2024, 1, 1⟩] "EURUSD" "2024-01-01" "2024-01-01" "data/raw" true).2 =
      if true ∧
          (download_range stableSortTicks idDecomp (fun _ _ => FetchOutcome.exn)
            [⟨2024, 1, 1⟩] "EURUSD" "2024-01-01" "2024-01-01" "data/raw" true).1 ≠ [] then
        [{ dir := "data/raw"
           name := "EURUSD" ++ "_" ++ "2024-01-01" ++ "_" ++ "2024-01-01" ++ ".csv"
           header := csvHeader
           rows := ((download_range stableSortTicks idDecomp (fun _ _ => FetchOutcome.exn)
             [⟨2024, 1, 1⟩] "EURUSD" "2024-01-01" "2024-01-01" "data/raw" true).1).map tickRow }]
      else [] :=
  C8_persistence stableSortTicks sortSpec_stableSortTicks idDecomp
    (fun _ _ => FetchOutcome.exn) [⟨2024, 1, 1⟩]
    "EURUSD" "2024-01-01" "2024-01-01" "data/raw" true

/-- C1 (amended): for every `sort_values` behaviour admitted by its contract,
the dataset returned by the range orchestrator is a permutation of the
concatenation of the per-day record sets, sorted non-decreasingly by
timestamp. -/
theorem C1_range_sorted (sortTs : List Tick → List Tick) (hs : SortSpec sortTs)
    (decomp : Decomp) (fetch : Date → Nat → FetchOutcome) (dates : List Date)
    (pair start_date end_date output_dir : String) (save : Bool) :
    ((download_range sortTs decomp fetch dates
          pair start_date end_date output_dir save).1).Perm
        (rangeDays decomp fetch dates).flatten ∧
      ((download_range sortTs decomp fetch dates
        pair start_date end_date output_dir save).1).Pairwise tsLE := by
  by_cases hA : (rangeDays decomp fetch dates).filter (fun r => !r.isEmpty) = []
  · rw [download_range_of_empty sortTs decomp fetch dates
      pair start_date end_date output_dir save hA]
    have hfl : (rangeDays decomp fetch dates).flatten = [] := by
      rw [← filter_nonempty_flatten, hA]
      rfl
    simp [hfl]
  · rw [download_range_of_nonempty sortTs decomp fetch dates
      pair start_date end_date output_dir save hA]
    exact ⟨(hs (rangeDays decomp fetch dates).flatten).1,
      (hs (rangeDays decomp fetch dates).flatten).2⟩

/-- C1 witness: the amended property checked with the stable insertion sort
as the concrete `sort_values` behaviour on a one-day range. -/
theorem C1_range_sorted_witness :
    ((download_range stableSortTicks idDecomp (fun _ _ => FetchOutcome.exn)
          [⟨2024, 1, 1⟩] "EURUSD" "2024-01-01" "2024-01-01" "data/raw" true).1).Perm
        (rangeDays idDecomp (fun _ _ => FetchOutcome.exn) [⟨2024, 1, 1⟩]).flatten ∧
      ((download_range stableSortTicks idDecomp (fun _ _ => FetchOutcome.exn)
        [⟨2024, 1, 1⟩] "EURUSD" "2024-01-01" "2024-01-01" "data/raw" true).1).Pairwise tsLE :=
  C1_range_sorted stableSortTicks sortSpec_stableSortTicks idDecomp
    (fun _ _ => FetchOutcome.exn) [⟨2024, 1, 1⟩]
    "EURUSD" "2024-01-01" "2024-01-01" "data/raw" true

/-- A behaviour admitted by the `sort_values` contract that reverses the
arrival order of equal keys: stable insertion sort of the reversed input.
`kind='quicksort'` promises nothing about equal-key order, so the code does
not exclude this behaviour. -/
def badSort : List Tick → List Tick := fun l => List.insertionSort tsLE l.reverse

theorem sortSpec_badSort : SortSpec badSort := fun l =>
  ⟨(List.perm_insertionSort tsLE l.reverse).trans (List.reverse_perm l),
    List.sorted_insertionSort tsLE l.reverse⟩

/-- Hour-0 payload with two records having the same offset (hence equal
timestamps) and different ask-volume patterns 1 and 2. -/
def cxData : List Byte :=
  [0, 0, 0, 0, 0, 0, 0, 0, 0, 0, 0, 0, 0, 0, 0, 1, 0, 0, 0, 0,
   0, 0, 0, 0, 0, 0, 0, 0, 0, 0, 0, 0, 0, 0, 0, 2, 0, 0, 0, 0]

/-- The first tick of `cxData`. -/
def cxTickA : Tick :=
  { timestamp := hourStartMs ⟨2024, 1, 1⟩ 0 + beU32 0 0 0 0
    ask := (beU32 0 0 0 0 : ℚ) / 100000
    bid := (beU32 0 0 0 0 : ℚ) / 100000
    ask_volume := beU32 0 0 0 1
    bid_volume := beU32 0 0 0 0 }

/-- The second tick of `cxData`: equal timestamp, different ask volume. -/
def cxTickB : Tick :=
  { timestamp := hourStartMs ⟨2024, 1, 1⟩ 0 + beU32 0 0 0 0
    ask := (beU32 0 0 0 0 : ℚ) / 100000
    bid := (beU32 0 0 0 0 : ℚ) / 100000
    ask_volume := beU32 0 0 0 2
    bid_volume := beU32 0 0 0 0 }

/-- Fetch behaviour serving `cxData` at hour 0 and failing elsewhere. -/
def cxFetch : Date → Nat → FetchOutcome := fun _ h =>
  if h = 0 then .response 200 cxData else .exn

/-- C1 counterexample: the claim's tie-breaking clause fails.  The two ticks
arrive in order `[cxTickA, cxTickB]` with equal timestamps, yet under a
sort behaviour admitted by the code's sort contract (`SortSpec badSort`)
the returned dataset is `[cxTickB, cxTickA]` — equal-timestamp ticks are
not kept in arrival order, because `sort_values` is invoked with the
default non-stable `quicksort`. -/
theorem C1_stability_counterexample :
    SortSpec badSort ∧
      (download_range badSort idDecomp cxFetch [⟨2024, 1, 1⟩]
          "EURUSD" "2024-01-01" "2024-01-01" "data/raw" false).1 =
        [cxTickB, cxTickA] ∧
      (rangeDays idDecomp cxFetch [⟨2024, 1, 1⟩]).flatten = [cxTickA, cxTickB] ∧
      cxTickA.timestamp = cxTickB.timestamp ∧ cxTickA ≠ cxTickB := by
  have cxparse : _parse_bi5 cxData ⟨2024, 1, 1⟩ 0 = some [cxTickA, cxTickB] :=
    parse_two_records ⟨2024, 1, 1⟩ 0
      0 0 0 0 0 0 0 0 0 0 0 0 0 0 0 1 0 0 0 0
      0 0 0 0 0 0 0 0 0 0 0 0 0 0 0 2 0 0 0 0
      (by decide) (by decide)
  have hr0 : hourRecords idDecomp (cxFetch ⟨2024, 1, 1⟩) ⟨2024, 1, 1⟩ 0 =
      [cxTickA, cxTickB] := by
    have heq : hourRecords idDecomp (cxFetch ⟨2024, 1, 1⟩) ⟨2024, 1, 1⟩ 0 =
        (_parse_bi5 cxData ⟨2024, 1, 1⟩ 0).getD [] := rfl
    rw [heq, cxparse]
    rfl
  have hother : ∀ h : Nat, h ≠ 0 →
      hourRecords idDecomp (cxFetch ⟨2024, 1, 1⟩) ⟨2024, 1, 1⟩ h = [] := by
    intro h hh
    have hfe : cxFetch ⟨2024, 1, 1⟩ h = .exn := by
      simp only [cxFetch]
      rw [if_neg hh]
    simp [hourRecords, hfe, _download_file]
  have hday : download_day idDecomp (cxFetch ⟨2024, 1, 1⟩) ⟨2024, 1, 1⟩ =
      [cxTickA, cxTickB] := by
    rw [download_day_eq]
    rw [show List.range 24 =
      [0, 1, 2, 3, 4, 5, 6, 7, 8, 9, 10, 11, 12, 13, 14, 15, 16, 17, 18, 19,
        20, 21, 22, 23] by decide]
    simp [hr0, hother]
  have hdays : (rangeDays idDecomp cxFetch [⟨2024, 1, 1⟩]).flatten =
      [cxTickA, cxTickB] := by
    simp [rangeDays, hday]
  have hfil : (rangeDays idDecomp cxFetch [⟨2024, 1, 1⟩]).filter
      (fun r => !r.isEmpty) ≠ [] := by
    simp [rangeDays, hday]
  have hle : tsLE cxTickB cxTickA := le_refl cxTickB.timestamp
  have hsort : badSort [cxTickA, cxTickB] = [cxTickB, cxTickA] := by
    show List.insertionSort tsLE ([cxTickA, cxTickB].reverse) = [cxTickB, cxTickA]
    rw [show ([cxTickA, cxTickB] : List Tick).reverse = [cxTickB, cxTickA] from rfl]
    simp only [List.insertionSort, List.orderedInsert]
    rw [if_pos hle]
  have hrange : (download_range badSort idDecomp cxFetch [⟨2024, 1, 1⟩]
      "EURUSD" "2024-01-01" "2024-01-01" "data/raw" false).1 = [cxTickB, cxTickA] := by
    rw [download_range_of_nonempty badSort idDecomp cxFetch [⟨2024, 1, 1⟩]
      "EURUSD" "2024-01-01" "2024-01-01" "data/raw" false hfil]
    show badSort (rangeDays idDecomp cxFetch [⟨2024, 1, 1⟩]).flatten = [cxTickB, cxTickA]
    rw [hdays, hsort]
  have hne : cxTickA ≠ cxTickB := by
    intro hcon
    have h1 := congrArg Tick.ask_volume hcon
    have h2 : cxTickA.ask_volume ≠ cxTickB.ask_volume := by decide
    exact h2 h1
  exact ⟨sortSpec_badSort, hrange, hdays, rfl, hne⟩
